import Mathlib

/-!
Verification of the scam-detection repository against its specification.

The repository ships the project README, the browser frontend
(src/unnamed/part_000, a JavaScript file) and the frontend test suite.
The Python detection engine (models.py, detector.py, client.py) is not
part of the source tree, so the Risk Aggregator, the Response
Parser/Validator and the batch orchestration are modelled here from the
specification text; the frontend functions are embedded directly from
src/unnamed/part_000.

Numbers: the source manipulates JavaScript / Python floating point
values, but every constant the specification mentions (0.85, 0.4, 0.92,
1.4, -0.2, the [0,1] clamp bounds) is an exactly representable decimal
and every operation involved (comparison, min, max) is exact on such
values, so confidences are embedded as rationals.  Rational literals are
written as explicitly reduced fractions so that the kernel can evaluate
comparisons on them.

Strings: JavaScript String.prototype.trim and String.prototype.split
are embedded as structural recursions over the character list of the
Lean string (jsTrim, jsLines below); on the ASCII inputs appearing in
this development they agree with the JavaScript builtins.
-/

/-- Discrete risk classification used by the data model (spec section 3). -/
inductive RiskLevel
  | none
  | low
  | medium
  | high
  | critical
deriving DecidableEq, Repr, Fintype

/-- Numeric rank of a risk level, used to compare levels. -/
def RiskLevel.toNat : RiskLevel → Nat
  | RiskLevel.none => 0
  | RiskLevel.low => 1
  | RiskLevel.medium => 2
  | RiskLevel.high => 3
  | RiskLevel.critical => 4

/-- Order on risk levels, induced by their rank. -/
def rle (a b : RiskLevel) : Prop := a.toNat ≤ b.toNat

instance (a b : RiskLevel) : Decidable (rle a b) :=
  inferInstanceAs (Decidable (a.toNat ≤ b.toNat))

/-- Maximum of two risk levels. -/
def rmax (a b : RiskLevel) : RiskLevel :=
  if a.toNat ≤ b.toNat then b else a

/-- Escalate a risk level one step (spec section 4.4); critical stays critical. -/
def escalate : RiskLevel → RiskLevel
  | RiskLevel.none => RiskLevel.low
  | RiskLevel.low => RiskLevel.medium
  | RiskLevel.medium => RiskLevel.high
  | RiskLevel.high => RiskLevel.critical
  | RiskLevel.critical => RiskLevel.critical

/-- De-escalate a risk level one step (spec section 4.4). -/
def deEscalate : RiskLevel → RiskLevel
  | RiskLevel.none => RiskLevel.none
  | RiskLevel.low => RiskLevel.none
  | RiskLevel.medium => RiskLevel.low
  | RiskLevel.high => RiskLevel.medium
  | RiskLevel.critical => RiskLevel.high

/-- Rational literal 0.85, the escalation threshold of spec section 4.4. -/
def q085 : ℚ := ⟨17, 20, by norm_num, by norm_num⟩

/-- Rational literal 0.4, the de-escalation threshold of spec section 4.4. -/
def q04 : ℚ := ⟨2, 5, by norm_num, by norm_num⟩

/-- Rational literal 0.92, the confidence of the end-to-end scenario of spec section 8. -/
def q092 : ℚ := ⟨23, 25, by norm_num, by norm_num⟩

/-- Rational literal 1.4, the clamping example of spec section 8. -/
def q14 : ℚ := ⟨7, 5, by norm_num, by norm_num⟩

/-- Rational literal -0.2, the clamping example of spec section 8. -/
def qm02 : ℚ := ⟨-1, 5, by norm_num, by norm_num⟩

/-- Modelled from the spec: the Risk Aggregator (detector.py is absent from
src/) consumes validated matches; for aggregation a match contributes the
default severity of its pattern and its confidence (spec section 4.4). -/
structure AggMatch where
  severity : RiskLevel
  confidence : ℚ
deriving DecidableEq

/-- Modelled from the spec: per-match adjusted level of spec section 4.4 — the
default severity of the pattern, escalated one step if confidence is at
least 0.85, de-escalated one step if confidence is below 0.4, with the
de-escalated value floored at low. -/
def adjusted (m : AggMatch) : RiskLevel :=
  if q085 ≤ m.confidence then escalate m.severity
  else if m.confidence < q04 then rmax RiskLevel.low (deEscalate m.severity)
  else m.severity

/-- Modelled from the spec: overall risk of a match list — the maximum of the
adjusted levels, none for the empty list (spec section 4.4). -/
def riskOf (ms : List AggMatch) : RiskLevel :=
  ms.foldr (fun m acc => rmax (adjusted m) acc) RiskLevel.none

/-- Modelled from the spec: the Risk Aggregator of spec section 4.4,
aggregate(matches) = (is_scam, risk_level) with is_scam true exactly for a
non-empty match list. -/
def aggregate (ms : List AggMatch) : Bool × RiskLevel :=
  (!ms.isEmpty, riskOf ms)

theorem rmax_left_comm (a b c : RiskLevel) : rmax a (rmax b c) = rmax b (rmax a c) := by
  revert a b c
  decide

theorem rle_rmax_left (a b : RiskLevel) : rle a (rmax a b) := by
  revert a b
  decide

theorem rle_rmax_right (a b : RiskLevel) : rle b (rmax a b) := by
  revert a b
  decide

theorem rle_trans (a b c : RiskLevel) : rle a b → rle b c → rle a c := by
  revert a b c
  decide

theorem rmax_cases (a b : RiskLevel) : rmax a b = a ∨ rmax a b = b := by
  revert a b
  decide

theorem riskOf_upper (ms : List AggMatch) : ∀ m ∈ ms, rle (adjusted m) (riskOf ms) := by
  induction ms with
  | nil => intro m hm; cases hm
  | cons x xs ih =>
    intro m hm
    rcases List.mem_cons.mp hm with h | h
    · subst h
      exact rle_rmax_left _ _
    · exact rle_trans _ _ _ (ih m h) (rle_rmax_right _ _)

theorem rmax_none_right (a : RiskLevel) : rmax a RiskLevel.none = a := by
  revert a
  decide

theorem riskOf_cons (x : AggMatch) (xs : List AggMatch) :
    riskOf (x :: xs) = rmax (adjusted x) (riskOf xs) := rfl

theorem riskOf_attained (ms : List AggMatch) (h : ms ≠ []) :
    ∃ m ∈ ms, riskOf ms = adjusted m := by
  induction ms with
  | nil => exact absurd rfl h
  | cons x xs ih =>
    cases xs with
    | nil =>
      exact ⟨x, List.mem_cons_self x [], by rw [riskOf_cons]; exact rmax_none_right _⟩
    | cons y ys =>
      rcases ih (by simp) with ⟨m, hm, hrisk⟩
      rcases rmax_cases (adjusted x) (riskOf (y :: ys)) with hc | hc
      · exact ⟨x, List.mem_cons_self _ _, by rw [riskOf_cons, hc]⟩
      · exact ⟨m, List.mem_cons_of_mem _ hm, by rw [riskOf_cons, hc, hrisk]⟩

theorem riskOf_perm (l l2 : List AggMatch) (h : l.Perm l2) : riskOf l = riskOf l2 := by
  induction h with
  | nil => rfl
  | cons x _ ih => rw [riskOf_cons, riskOf_cons, ih]
  | swap x y l => rw [riskOf_cons, riskOf_cons, riskOf_cons, riskOf_cons, rmax_left_comm]
  | trans _ _ ih1 ih2 => exact ih1.trans ih2

/-- C1: the Risk Aggregator maps the empty match set to is_scam = false and
risk_level = none, and every non-empty match set to is_scam = true. -/
theorem aggregate_empty_none_nonempty_scam :
    aggregate [] = (false, RiskLevel.none) ∧
    ∀ ms : List AggMatch, ms ≠ [] → (aggregate ms).1 = true := by
  refine ⟨rfl, ?_⟩
  intro ms h
  cases ms with
  | nil => exact absurd rfl h
  | cons x xs => rfl

/-- C1 witness: a concrete non-empty match set is flagged as a scam. -/
theorem aggregate_empty_none_nonempty_scam_witness :
    (aggregate [AggMatch.mk RiskLevel.high q092]).1 = true :=
  aggregate_empty_none_nonempty_scam.2 [AggMatch.mk RiskLevel.high q092] (by decide)

/-- C2: for every non-empty match set the risk level is the maximum over the
matches of the adjusted severity — the default severity of the pattern,
escalated one step when confidence is at least 0.85 and de-escalated one
step when confidence is below 0.4, the de-escalated value never dropping
below low; and a single match of default severity high with confidence
0.92 yields risk level critical. -/
theorem risk_level_is_max_adjusted :
    (∀ ms : List AggMatch, ms ≠ [] →
      (∀ m ∈ ms, rle (adjusted m) (aggregate ms).2) ∧
      ∃ m ∈ ms, (aggregate ms).2 = adjusted m) ∧
    (∀ m : AggMatch, adjusted m =
      if q085 ≤ m.confidence then escalate m.severity
      else if m.confidence < q04 then rmax RiskLevel.low (deEscalate m.severity)
      else m.severity) ∧
    (∀ m : AggMatch, rle RiskLevel.low (rmax RiskLevel.low (deEscalate m.severity))) ∧
    aggregate [AggMatch.mk RiskLevel.high q092] = (true, RiskLevel.critical) := by
  refine ⟨?_, fun m => rfl, fun m => ?_, by decide⟩
  · intro ms h
    exact ⟨riskOf_upper ms, riskOf_attained ms h⟩
  · have : ∀ s : RiskLevel, rle RiskLevel.low (rmax RiskLevel.low (deEscalate s)) := by decide
    exact this m.severity

/-- C2 witness: the maximum characterization instantiated at a concrete
two-element match set. -/
theorem risk_level_is_max_adjusted_witness :
    (∀ m ∈ [AggMatch.mk RiskLevel.medium q04, AggMatch.mk RiskLevel.high q092],
      rle (adjusted m)
        (aggregate [AggMatch.mk RiskLevel.medium q04, AggMatch.mk RiskLevel.high q092]).2) ∧
    ∃ m ∈ [AggMatch.mk RiskLevel.medium q04, AggMatch.mk RiskLevel.high q092],
      (aggregate [AggMatch.mk RiskLevel.medium q04, AggMatch.mk RiskLevel.high q092]).2 =
        adjusted m :=
  risk_level_is_max_adjusted.1
    [AggMatch.mk RiskLevel.medium q04, AggMatch.mk RiskLevel.high q092] (by decide)

/-- C3: the Risk Aggregator is a total, order-independent function of its
match set — permuting the input matches yields the same (is_scam,
risk_level) pair. -/
theorem aggregate_perm_invariant (l l2 : List AggMatch) (h : l.Perm l2) :
    aggregate l = aggregate l2 := by
  unfold aggregate
  have hlen := h.length_eq
  have hempty : l.isEmpty = l2.isEmpty := by
    cases l <;> cases l2 <;> simp_all
  rw [hempty, riskOf_perm l l2 h]

/-- C3 witness: swapping two concrete matches leaves the aggregate unchanged. -/
theorem aggregate_perm_invariant_witness :
    aggregate [AggMatch.mk RiskLevel.low q04, AggMatch.mk RiskLevel.high q092] =
      aggregate [AggMatch.mk RiskLevel.high q092, AggMatch.mk RiskLevel.low q04] :=
  aggregate_perm_invariant _ _
    (List.Perm.swap (AggMatch.mk RiskLevel.high q092) (AggMatch.mk RiskLevel.low q04) [])

/-- Modelled from the spec: the JSON value found in the confidence field of a
candidate match object — either a number or some non-numeric value
(the Response Parser/Validator of spec section 4.3 is not under src/). -/
inductive JNum
  | num (q : ℚ)
  | notNum
deriving DecidableEq

/-- Modelled from the spec: a candidate match object as delivered by the
model, before validation (spec section 4.3); every field beyond the name
may be missing or malformed. -/
structure CandidateMatch where
  pattern_name : String
  confidence : Option JNum
  evidence : Option (List String)
  explanation : Option String
deriving DecidableEq

/-- PatternMatch of the data model (spec section 3): produced only by the
Response Parser/Validator, confidence already clamped into [0,1]. -/
structure PatternMatch where
  pattern_name : String
  confidence : ℚ
  evidence : List String
  explanation : Option String
deriving DecidableEq

/-- Modelled from the spec: coerce a numeric confidence into [0,1] by
clamping (spec section 4.3 step 4). -/
def clampConfidence (q : ℚ) : ℚ := max 0 (min 1 q)

/-- Modelled from the spec: validation of one candidate match (spec section
4.3 steps 4 and 5) — clamp a numeric confidence, drop the match when the
confidence is absent or non-numeric, drop the match when its pattern_name
is not in the catalog the prompt was built from, default a missing
evidence list to the empty list and keep a missing explanation absent. -/
def validateMatch (catalog : List String) (c : CandidateMatch) : Option PatternMatch :=
  match c.confidence with
  | some (JNum.num q) =>
    if c.pattern_name ∈ catalog then
      some (PatternMatch.mk c.pattern_name (clampConfidence q) (c.evidence.getD []) c.explanation)
    else none
  | _ => none

/-- Modelled from the spec: validation of the candidate list — dropped
matches do not fail the whole result (spec section 4.3). -/
def validateMatches (catalog : List String) (cs : List CandidateMatch) : List PatternMatch :=
  cs.filterMap (validateMatch catalog)

/-- Modelled from the spec: the validation note recorded for a dropped
candidate match, none when the candidate is kept (spec section 4.3). -/
def noteFor (catalog : List String) (c : CandidateMatch) : Option String :=
  match c.confidence with
  | some (JNum.num _) =>
    if c.pattern_name ∈ catalog then none
    else some ("unknown pattern: " ++ c.pattern_name)
  | _ => some ("invalid confidence for pattern: " ++ c.pattern_name)

/-- Modelled from the spec: one validation note is recorded for every
dropped candidate match (spec section 4.3). -/
def validationNotes (catalog : List String) (cs : List CandidateMatch) : List String :=
  cs.filterMap (noteFor catalog)

/-- Insertion step of the stable sort by descending confidence used on the
validated matches (spec section 4.3 output). -/
def insertByConfidence (m : PatternMatch) (l : List PatternMatch) : List PatternMatch :=
  match l with
  | [] => [m]
  | x :: xs => if m.confidence ≤ x.confidence then x :: insertByConfidence m xs
               else m :: x :: xs

/-- Stable sort of the validated matches by descending confidence (spec
section 4.3 output). -/
def sortByConfidence (l : List PatternMatch) : List PatternMatch :=
  l.foldr insertByConfidence []

/-- ResponseFormatError of spec section 7: terminal failure of one analysis
when no JSON object can be extracted from the reply. -/
inductive ResponseFormatError
  | unparsable
deriving DecidableEq

/-- Output of the Response Parser/Validator: the validated matches sorted by
descending confidence together with the recorded validation notes. -/
structure ParsedResponse where
  matched : List PatternMatch
  notes : List String
deriving DecidableEq

/-- Modelled from the spec: the Response Parser/Validator of spec section
4.3.  Steps 1 and 2 (strict JSON parse of the raw text, then retry on the
first balanced brace or bracket span) concern raw text handling whose code
is not under src/; their outcome is abstracted as the extracted argument,
none meaning that no JSON could be extracted at all.  Step 3 fails with
ResponseFormatError exactly in that case; steps 4 and 5 validate the
candidate matches and never fail. -/
def parseResponse (catalog : List String) (extracted : Option (List CandidateMatch)) :
    Except ResponseFormatError ParsedResponse :=
  match extracted with
  | none => Except.error ResponseFormatError.unparsable
  | some cs =>
    Except.ok (ParsedResponse.mk (sortByConfidence (validateMatches catalog cs))
      (validationNotes catalog cs))

theorem validateMatch_no_confidence (catalog : List String) (c : CandidateMatch)
    (h : c.confidence = none ∨ c.confidence = some JNum.notNum) :
    validateMatch catalog c = none := by
  unfold validateMatch
  rcases h with h | h <;> rw [h]

theorem noteFor_no_confidence (catalog : List String) (c : CandidateMatch)
    (h : c.confidence = none ∨ c.confidence = some JNum.notNum) :
    noteFor catalog c = some ("invalid confidence for pattern: " ++ c.pattern_name) := by
  unfold noteFor
  rcases h with h | h <;> rw [h]

theorem validateMatch_unknown_name (catalog : List String) (c : CandidateMatch)
    (h : c.pattern_name ∉ catalog) : validateMatch catalog c = none := by
  unfold validateMatch
  cases hc : c.confidence with
  | none => rfl
  | some jn =>
    cases jn with
    | notNum => rfl
    | num q => simp [h]

theorem validateMatches_middle_dropped (catalog : List String)
    (pre post : List CandidateMatch) (c : CandidateMatch)
    (h : validateMatch catalog c = none) :
    validateMatches catalog (pre ++ c :: post) = validateMatches catalog (pre ++ post) := by
  simp [validateMatches, List.filterMap_append, List.filterMap_cons, h]

/-- C4: a numeric confidence outside [0,1] is clamped into that interval
(1.4 becomes 1.0, -0.2 becomes 0.0), and a candidate match whose
confidence is absent or non-numeric is dropped with a validation note
while the other matches and the whole result are unaffected. -/
theorem confidence_clamped_nonnumeric_dropped :
    clampConfidence q14 = 1 ∧
    clampConfidence qm02 = 0 ∧
    (∀ q : ℚ, 0 ≤ clampConfidence q ∧ clampConfidence q ≤ 1) ∧
    (∀ (catalog : List String) (pre post : List CandidateMatch) (c : CandidateMatch),
      c.confidence = none ∨ c.confidence = some JNum.notNum →
      validateMatches catalog (pre ++ c :: post) = validateMatches catalog (pre ++ post) ∧
      validationNotes catalog (pre ++ c :: post) =
        validationNotes catalog pre ++
          ("invalid confidence for pattern: " ++ c.pattern_name) :: validationNotes catalog post) := by
  refine ⟨by decide, by decide, ?_, ?_⟩
  · intro q
    exact ⟨le_max_left 0 _, max_le (by norm_num) (min_le_left 1 q)⟩
  · intro catalog pre post c h
    constructor
    · exact validateMatches_middle_dropped catalog pre post c
        (validateMatch_no_confidence catalog c h)
    · simp [validationNotes, List.filterMap_append, List.filterMap_cons,
        noteFor_no_confidence catalog c h]

/-- C4 witness: a candidate with an absent confidence is dropped from a
concrete list, leaving the valid candidate untouched and adding one note. -/
theorem confidence_clamped_nonnumeric_dropped_witness :
    validateMatches ["advance_fee_scam"]
        ([] ++ CandidateMatch.mk "advance_fee_scam" none none none ::
          [CandidateMatch.mk "advance_fee_scam" (some (JNum.num q092)) none none]) =
      validateMatches ["advance_fee_scam"]
        ([] ++ [CandidateMatch.mk "advance_fee_scam" (some (JNum.num q092)) none none]) ∧
    validationNotes ["advance_fee_scam"]
        ([] ++ CandidateMatch.mk "advance_fee_scam" none none none ::
          [CandidateMatch.mk "advance_fee_scam" (some (JNum.num q092)) none none]) =
      validationNotes ["advance_fee_scam"] [] ++
        ("invalid confidence for pattern: " ++ "advance_fee_scam") ::
          validationNotes ["advance_fee_scam"]
            [CandidateMatch.mk "advance_fee_scam" (some (JNum.num q092)) none none] :=
  confidence_clamped_nonnumeric_dropped.2.2.2 ["advance_fee_scam"] []
    [CandidateMatch.mk "advance_fee_scam" (some (JNum.num q092)) none none]
    (CandidateMatch.mk "advance_fee_scam" none none none) (Or.inl rfl)

/-- C5: a match whose pattern_name is not in the catalog the prompt was
built from is dropped while the remaining matches are unaffected; the
parser never fails on partial or malformed individual match entries and
returns ResponseFormatError exactly when no JSON could be extracted from
the top-level response. -/
theorem unknown_pattern_dropped_never_raises :
    (∀ (catalog : List String) (pre post : List CandidateMatch) (c : CandidateMatch),
      c.pattern_name ∉ catalog →
      validateMatches catalog (pre ++ c :: post) = validateMatches catalog (pre ++ post)) ∧
    (∀ (catalog : List String) (pre post : List CandidateMatch) (c : CandidateMatch),
      c.pattern_name ∉ catalog →
      (parseResponse catalog (some (pre ++ c :: post))).map ParsedResponse.matched =
        (parseResponse catalog (some (pre ++ post))).map ParsedResponse.matched) ∧
    (∀ (catalog : List String) (cs : List CandidateMatch),
      ∃ r, parseResponse catalog (some cs) = Except.ok r) ∧
    (∀ (catalog : List String) (extracted : Option (List CandidateMatch)),
      (∃ e, parseResponse catalog extracted = Except.error e) ↔ extracted = none) := by
  refine ⟨?_, ?_, ?_, ?_⟩
  · intro catalog pre post c h
    exact validateMatches_middle_dropped catalog pre post c
      (validateMatch_unknown_name catalog c h)
  · intro catalog pre post c h
    simp only [parseResponse, Except.map]
    rw [validateMatches_middle_dropped catalog pre post c
      (validateMatch_unknown_name catalog c h)]
  · intro catalog cs
    exact ⟨_, rfl⟩
  · intro catalog extracted
    cases extracted with
    | none =>
      exact ⟨fun _ => rfl, fun _ => ⟨ResponseFormatError.unparsable, rfl⟩⟩
    | some cs => simp [parseResponse]

/-- C5 witness: a hallucinated pattern name is dropped from a concrete
candidate list, and the parser succeeds on it. -/
theorem unknown_pattern_dropped_never_raises_witness :
    validateMatches ["advance_fee_scam"]
        ([CandidateMatch.mk "advance_fee_scam" (some (JNum.num q092)) none none] ++
          CandidateMatch.mk "hallucinated" (some (JNum.num q04)) none none :: []) =
      validateMatches ["advance_fee_scam"]
        ([CandidateMatch.mk "advance_fee_scam" (some (JNum.num q092)) none none] ++ []) :=
  unknown_pattern_dropped_never_raises.1 ["advance_fee_scam"]
    [CandidateMatch.mk "advance_fee_scam" (some (JNum.num q092)) none none] []
    (CandidateMatch.mk "hallucinated" (some (JNum.num q04)) none none) (by decide)

/-- Message of the data model (spec section 3): required content, optional
title and author, passthrough metadata (never interpreted; scalars are
embedded as strings). -/
structure Message where
  content : String
  title : Option String
  author : Option String
  metadata : List (String × String)
deriving DecidableEq

/-- DetectionResult of the data model (spec section 3); the derived accessor
highest_confidence_match is not needed by any claim and is omitted. -/
structure DetectionResult where
  is_scam : Bool
  risk_level : RiskLevel
  matched_patterns : List PatternMatch
  summary : String
deriving DecidableEq

/-- Error taxonomy of spec section 7 for a single analysis. -/
inductive DetectError
  | transport
  | upstream (status : Nat)
  | format
  | cancelled
deriving DecidableEq

deriving instance DecidableEq for Except

/-- Outcome of one analysis inside a batch: a DetectionResult on success, a
tagged failure otherwise (spec section 4.5, non-fail-fast mode). -/
def BatchSlot : Type := Except DetectError DetectionResult

instance : DecidableEq BatchSlot :=
  inferInstanceAs (DecidableEq (Except DetectError DetectionResult))

/-- Modelled from the spec: the outcome destined for slot j of the batch —
the analysis of message j, which depends only on that message (spec
section 4.5: each message is analyzed independently; the per-message
pipeline, whose code is not under src/, is abstracted as the oracle). -/
def slotOutcome (msgs : List Message) (oracle : Message → BatchSlot) (j : Nat) :
    Option BatchSlot :=
  (msgs.get? j).map oracle

/-- Modelled from the spec: concurrent execution of a batch (spec section 5).
The completion order of the underlying requests is an explicit schedule:
slots are written in the order the analyses complete, each completed
analysis writing its own slot. -/
def runSlots (msgs : List Message) (oracle : Message → BatchSlot) (order : List Nat) :
    Nat → Option BatchSlot :=
  order.foldl (fun acc j => Function.update acc j (slotOutcome msgs oracle j))
    (fun _ => Option.none)

/-- Modelled from the spec: analyzeBatch in non-fail-fast mode (spec sections
4.5 and 5) — the returned sequence reads the filled slots back in input
position order, whatever the completion order was. -/
def analyzeBatch (msgs : List Message) (oracle : Message → BatchSlot) (order : List Nat) :
    List (Option BatchSlot) :=
  (List.range msgs.length).map (runSlots msgs oracle order)

theorem foldl_update_eval (g : Nat → Option BatchSlot) (order : List Nat)
    (acc : Nat → Option BatchSlot) (i : Nat) :
    (order.foldl (fun a j => Function.update a j (g j)) acc) i =
      if i ∈ order then g i else acc i := by
  induction order generalizing acc with
  | nil => simp
  | cons j rest ih =>
    simp only [List.foldl_cons, ih, List.mem_cons]
    by_cases hir : i ∈ rest
    · simp [hir]
    · by_cases hij : i = j
      · subst hij
        simp [hir, Function.update_apply]
      · simp [hir, hij, Function.update_apply]

theorem range_map_get (msgs : List Message) (oracle : Message → BatchSlot) :
    (List.range msgs.length).map (fun i => (msgs.get? i).map oracle) =
      msgs.map (fun m => some (oracle m)) := by
  induction msgs with
  | nil => rfl
  | cons a l ih =>
    rw [List.length_cons, List.range_succ_eq_map, List.map_cons, List.map_map, List.map_cons]
    have hcomp : ((fun i => ((a :: l).get? i).map oracle) ∘ Nat.succ) =
        fun i => (l.get? i).map oracle := rfl
    rw [hcomp, ih]
    rfl

theorem analyzeBatch_eq (msgs : List Message) (oracle : Message → BatchSlot)
    (order : List Nat) (h : ∀ j, j < msgs.length → j ∈ order) :
    analyzeBatch msgs oracle order = msgs.map (fun m => some (oracle m)) := by
  unfold analyzeBatch
  have h1 : ∀ i ∈ List.range msgs.length,
      runSlots msgs oracle order i = (msgs.get? i).map oracle := by
    intro i hi
    unfold runSlots
    rw [foldl_update_eval, if_pos (h i (List.mem_range.mp hi))]
    rfl
  rw [List.map_congr_left h1]
  exact range_map_get msgs oracle

/-- Concrete three-message batch of the scenario in spec section 8. -/
def demoMessages : List Message :=
  [Message.mk "m1 text" none none [], Message.mk "m2 text" none none [],
   Message.mk "m3 text" none none []]

/-- Concrete successful result used by the demo oracle. -/
def demoResult : DetectionResult :=
  DetectionResult.mk false RiskLevel.none [] "No risk indicators found"

/-- Concrete per-message pipeline in which the upstream call for the second
message raises UpstreamError and the other analyses succeed. -/
def demoOracle : Message → BatchSlot := fun m =>
  if m.content = "m2 text" then Except.error (DetectError.upstream 500)
  else Except.ok demoResult

/-- C6: in non-fail-fast mode analyzeBatch over n messages returns exactly n
slots positionally aligned with the input for every completion order;
each slot carries the outcome of its own message — a DetectionResult on
success, a tagged failure where the analysis raised; in particular for
three messages whose second upstream call raises UpstreamError, positions
0 and 2 hold results and position 1 holds the tagged failure. -/
theorem analyzeBatch_positional_alignment :
    (∀ (msgs : List Message) (oracle : Message → BatchSlot) (order : List Nat),
      (∀ j, j < msgs.length → j ∈ order) →
      analyzeBatch msgs oracle order = msgs.map (fun m => some (oracle m))) ∧
    (∀ order : List Nat, (∀ j, j < demoMessages.length → j ∈ order) →
      analyzeBatch demoMessages demoOracle order =
        [some (Except.ok demoResult), some (Except.error (DetectError.upstream 500)),
         some (Except.ok demoResult)]) := by
  refine ⟨analyzeBatch_eq, ?_⟩
  intro order h
  rw [analyzeBatch_eq demoMessages demoOracle order h]
  rfl

/-- C6 witness: the three-message batch with the completion order 2, 0, 1 is
still positionally aligned with the input. -/
theorem analyzeBatch_positional_alignment_witness :
    analyzeBatch demoMessages demoOracle [2, 0, 1] =
      [some (Except.ok demoResult), some (Except.error (DetectError.upstream 500)),
       some (Except.ok demoResult)] :=
  analyzeBatch_positional_alignment.2 [2, 0, 1] (by decide)

/-- JavaScript whitespace test, restricted to the ASCII whitespace
characters; String.prototype.trim also strips other Unicode whitespace,
which does not occur in this development. -/
def isJsSpace (c : Char) : Bool := c = ' ' || c = '\t' || c = '\n' || c = '\r'

/-- Character-list core of String.prototype.trim. -/
def trimChars (l : List Char) : List Char :=
  ((l.dropWhile isJsSpace).reverse.dropWhile isJsSpace).reverse

/-- Embedding of String.prototype.trim, used as value.trim() throughout
src/unnamed/part_000. -/
def jsTrim (s : String) : String := String.mk (trimChars s.data)

/-- Character-list core of String.prototype.split with a newline separator. -/
def splitNL (l : List Char) : List (List Char) :=
  match l with
  | [] => [[]]
  | c :: cs =>
    match splitNL cs with
    | [] => [[c]]
    | h :: t => if c = '\n' then [] :: h :: t else (c :: h) :: t

/-- Embedding of value.split on a newline from savePattern in
src/unnamed/part_000. -/
def jsLines (s : String) : List String := (splitNL s.data).map (fun l => String.mk l)

/-- Form state of the analyze tab read by the submit handler of initAnalyze
(src/unnamed/part_000 lines 84-120): raw values of the message-content,
message-title and message-author inputs. -/
structure AnalyzeForm where
  content : String
  title : String
  author : String
deriving DecidableEq

/-- JSON body posted to /api/analyze by the analyze submit handler. -/
structure AnalyzeBody where
  content : String
  title : Option String
  author : Option String
deriving DecidableEq

/-- Externally visible step taken by the analyze submit handler: a warning
toast or an HTTP POST. -/
inductive AnalyzeStep
  | warnToast (message : String)
  | postAnalyze (url : String) (body : AnalyzeBody)
deriving DecidableEq

/-- Bool test selecting the POST steps of the analyze submit handler. -/
def isPostStep : AnalyzeStep → Bool
  | AnalyzeStep.postAnalyze _ _ => true
  | _ => false

/-- Embedding of the submit handler installed by initAnalyze
(src/unnamed/part_000 lines 90-119): trim the content, warn and stop when
it trims to empty, otherwise post the content together with the trimmed
title and author (empty ones become null) to /api/analyze once. -/
def initAnalyzeSubmit (f : AnalyzeForm) : List AnalyzeStep :=
  let content := jsTrim f.content
  if content = "" then [AnalyzeStep.warnToast "Please enter a message to analyze"]
  else
    [AnalyzeStep.postAnalyze "/api/analyze"
      (AnalyzeBody.mk content
        (if jsTrim f.title = "" then none else some (jsTrim f.title))
        (if jsTrim f.author = "" then none else some (jsTrim f.author)))]

/-- C7: message content is required and must be non-empty after trimming —
submitting the analyze form with content that trims to empty performs no
request to /api/analyze and reports a warning, while content that trims
non-empty results in exactly one POST to /api/analyze. -/
theorem analyze_requires_nonempty_content :
    ∀ f : AnalyzeForm,
      (jsTrim f.content = "" →
        initAnalyzeSubmit f = [AnalyzeStep.warnToast "Please enter a message to analyze"] ∧
        (initAnalyzeSubmit f).countP isPostStep = 0) ∧
      (jsTrim f.content ≠ "" →
        (initAnalyzeSubmit f).countP isPostStep = 1 ∧
        initAnalyzeSubmit f =
          [AnalyzeStep.postAnalyze "/api/analyze"
            (AnalyzeBody.mk (jsTrim f.content)
              (if jsTrim f.title = "" then none else some (jsTrim f.title))
              (if jsTrim f.author = "" then none else some (jsTrim f.author)))]) := by
  intro f
  constructor
  · intro h
    simp [initAnalyzeSubmit, h, List.countP_cons, isPostStep]
  · intro h
    simp [initAnalyzeSubmit, h, List.countP_cons, isPostStep]

/-- C7 witness: whitespace-only content produces only a warning, and concrete
non-empty content produces exactly one POST. -/
theorem analyze_requires_nonempty_content_witness :
    initAnalyzeSubmit (AnalyzeForm.mk "   " "" "") =
      [AnalyzeStep.warnToast "Please enter a message to analyze"] ∧
    (initAnalyzeSubmit (AnalyzeForm.mk "Pay $500 to receive your prize!" "" "")).countP
      isPostStep = 1 :=
  ⟨((analyze_requires_nonempty_content (AnalyzeForm.mk "   " "" "")).1 (by decide)).1,
   ((analyze_requires_nonempty_content
      (AnalyzeForm.mk "Pay $500 to receive your prize!" "" "")).2 (by decide)).1⟩

/-- Form state of the pattern modal read by savePattern
(src/unnamed/part_000 lines 323-368): the two hidden fields and the raw
values of the name, description, severity, indicators and examples
inputs. -/
structure PatternForm where
  editMode : String
  originalName : String
  name : String
  description : String
  severity : String
  indicators : String
  examples : String
deriving DecidableEq

/-- Value of one field of the JSON body sent by savePattern. -/
inductive FieldValue
  | str (s : String)
  | strList (l : List String)
deriving DecidableEq

/-- Externally visible step taken by savePattern: a warning toast, a PUT to
/api/patterns/ followed by the URL-encoded original name, or a POST to
/api/patterns (encodeURIComponent is the identity on the names appearing
here and is not modelled). -/
inductive SaveStep
  | warnToast (message : String)
  | putPattern (originalName : String) (body : List (String × FieldValue))
  | postPattern (body : List (String × FieldValue))
deriving DecidableEq

/-- Embedding of savePattern (src/unnamed/part_000 lines 323-368): trim the
name and description, split the indicators and examples textareas on
newlines with every line trimmed and empty lines dropped, warn and stop
when the trimmed name or description is empty, otherwise PUT (edit mode)
or POST (create mode) the pattern fields. -/
def savePattern (f : PatternForm) : List SaveStep :=
  let name := jsTrim f.name
  let description := jsTrim f.description
  let severity := f.severity
  let indicators := ((jsLines f.indicators).map jsTrim).filter (fun x => x ≠ "")
  let examples := ((jsLines f.examples).map jsTrim).filter (fun x => x ≠ "")
  if name = "" ∨ description = "" then
    [SaveStep.warnToast "Name and description are required"]
  else if f.editMode = "edit" then
    [SaveStep.putPattern f.originalName
      [("description", FieldValue.str description), ("severity", FieldValue.str severity),
       ("indicators", FieldValue.strList indicators),
       ("examples", FieldValue.strList examples)]]
  else
    [SaveStep.postPattern
      [("name", FieldValue.str name), ("description", FieldValue.str description),
       ("severity", FieldValue.str severity), ("indicators", FieldValue.strList indicators),
       ("examples", FieldValue.strList examples)]]

/-- C10: savePattern sends no request when the trimmed name or trimmed
description is empty — it only shows a warning — and when it does send,
the indicators and examples arrays are exactly the textarea contents
split on newlines with each line trimmed and empty lines removed. -/
theorem savePattern_requires_name_description_and_splits :
    ∀ f : PatternForm,
      (jsTrim f.name = "" ∨ jsTrim f.description = "" →
        savePattern f = [SaveStep.warnToast "Name and description are required"]) ∧
      (jsTrim f.name ≠ "" → jsTrim f.description ≠ "" →
        savePattern f =
          if f.editMode = "edit" then
            [SaveStep.putPattern f.originalName
              [("description", FieldValue.str (jsTrim f.description)),
               ("severity", FieldValue.str f.severity),
               ("indicators", FieldValue.strList
                 (((jsLines f.indicators).map jsTrim).filter (fun x => x ≠ ""))),
               ("examples", FieldValue.strList
                 (((jsLines f.examples).map jsTrim).filter (fun x => x ≠ "")))]]
          else
            [SaveStep.postPattern
              [("name", FieldValue.str (jsTrim f.name)),
               ("description", FieldValue.str (jsTrim f.description)),
               ("severity", FieldValue.str f.severity),
               ("indicators", FieldValue.strList
                 (((jsLines f.indicators).map jsTrim).filter (fun x => x ≠ ""))),
               ("examples", FieldValue.strList
                 (((jsLines f.examples).map jsTrim).filter (fun x => x ≠ "")))]]) := by
  intro f
  constructor
  · intro h
    simp only [savePattern]
    rw [if_pos h]
  · intro h1 h2
    have hno : ¬(jsTrim f.name = "" ∨ jsTrim f.description = "") := by
      intro hc
      rcases hc with hc | hc
      · exact h1 hc
      · exact h2 hc
    simp only [savePattern]
    rw [if_neg hno]

/-- C10 witness: an empty description produces only a warning, and a concrete
create-mode form produces a POST whose indicators textarea is split,
trimmed and cleaned of empty lines. -/
theorem savePattern_requires_name_description_and_splits_witness :
    savePattern (PatternForm.mk "create" "" "fake_giveaway" "  " "high" "" "") =
      [SaveStep.warnToast "Name and description are required"] ∧
    savePattern
        (PatternForm.mk "create" "" "fake_giveaway" "A giveaway scam" "high"
          " free crypto \n\n urgency " "Send 0.1 ETH, get 1 ETH back!") =
      [SaveStep.postPattern
        [("name", FieldValue.str "fake_giveaway"),
         ("description", FieldValue.str "A giveaway scam"),
         ("severity", FieldValue.str "high"),
         ("indicators", FieldValue.strList ["free crypto", "urgency"]),
         ("examples", FieldValue.strList ["Send 0.1 ETH, get 1 ETH back!"])]] := by
  constructor
  · exact (savePattern_requires_name_description_and_splits
      (PatternForm.mk "create" "" "fake_giveaway" "  " "high" "" "")).1 (Or.inr (by decide))
  · have h := (savePattern_requires_name_description_and_splits
      (PatternForm.mk "create" "" "fake_giveaway" "A giveaway scam" "high"
        " free crypto \n\n urgency " "Send 0.1 ETH, get 1 ETH back!")).2
      (by decide) (by decide)
    rw [h]
    decide

/-- Form state of the config tab read by the submit handler of initConfig
(src/unnamed/part_000 lines 458-489): raw values of the base-url, api-key,
model, temperature and max-tokens inputs; the form has no timeout input
(mirrored by the test DOM in app.test.js). -/
structure ConfigForm where
  base_url : String
  api_key : String
  model : String
  temperature : String
  max_tokens : String
deriving DecidableEq

/-- Value placed in the update object by initConfig: a trimmed string for
the first three fields, the parseFloat or parseInt image of the raw input
text for the numeric fields.  The numeric parse is kept symbolic — the
claims only concern which keys the update carries. -/
inductive ConfigValue
  | str (s : String)
  | floatOf (raw : String)
  | intOf (raw : String)
deriving DecidableEq

/-- Embedding of the update object built by the submit handler of initConfig
(src/unnamed/part_000 lines 464-479) and sent by PUT to /api/config: each
key is added only when its field is non-empty (after trimming for the
string fields, raw truthiness for the numeric fields). -/
def initConfigUpdate (f : ConfigForm) : List (String × ConfigValue) :=
  (if jsTrim f.base_url ≠ "" then [("base_url", ConfigValue.str (jsTrim f.base_url))] else []) ++
  (if jsTrim f.api_key ≠ "" then [("api_key", ConfigValue.str (jsTrim f.api_key))] else []) ++
  (if jsTrim f.model ≠ "" then [("model", ConfigValue.str (jsTrim f.model))] else []) ++
  (if f.temperature ≠ "" then [("temperature", ConfigValue.floatOf f.temperature)] else []) ++
  (if f.max_tokens ≠ "" then [("max_tokens", ConfigValue.intOf f.max_tokens)] else [])

/-- C8 counterexample: even when every field of the config form is supplied,
the update initConfig sends to PUT /api/config carries exactly the keys
base_url, api_key, model, temperature and max_tokens — no timeout key —
so the request timeout is not mutable through the exposed configuration
interface. -/
theorem initConfigUpdate_full_form_has_no_timeout :
    (initConfigUpdate
        (ConfigForm.mk "http://localhost:1234/v1" "sk-key" "local-model" "0.1" "2048")).map
        Prod.fst =
      ["base_url", "api_key", "model", "temperature", "max_tokens"] ∧
    "timeout" ∉
      (initConfigUpdate
        (ConfigForm.mk "http://localhost:1234/v1" "sk-key" "local-model" "0.1" "2048")).map
        Prod.fst := by
  decide

/-- C8 amended: base_url, api_key, model, temperature and max_tokens are each
mutable at runtime through the config form — every non-empty field is
included in the PUT /api/config update — but the update never carries a
timeout key: the request timeout is not exposed by this configuration
interface. -/
theorem initConfigUpdate_mutable_fields_no_timeout :
    ∀ f : ConfigForm,
      "timeout" ∉ (initConfigUpdate f).map Prod.fst ∧
      (∀ k, k ∈ (initConfigUpdate f).map Prod.fst →
        k ∈ ["base_url", "api_key", "model", "temperature", "max_tokens"]) ∧
      (jsTrim f.base_url ≠ "" →
        ("base_url", ConfigValue.str (jsTrim f.base_url)) ∈ initConfigUpdate f) ∧
      (jsTrim f.api_key ≠ "" →
        ("api_key", ConfigValue.str (jsTrim f.api_key)) ∈ initConfigUpdate f) ∧
      (jsTrim f.model ≠ "" →
        ("model", ConfigValue.str (jsTrim f.model)) ∈ initConfigUpdate f) ∧
      (f.temperature ≠ "" →
        ("temperature", ConfigValue.floatOf f.temperature) ∈ initConfigUpdate f) ∧
      (f.max_tokens ≠ "" →
        ("max_tokens", ConfigValue.intOf f.max_tokens) ∈ initConfigUpdate f) := by
  intro f
  by_cases h1 : jsTrim f.base_url = "" <;> by_cases h2 : jsTrim f.api_key = "" <;>
    by_cases h3 : jsTrim f.model = "" <;> by_cases h4 : f.temperature = "" <;>
    by_cases h5 : f.max_tokens = "" <;>
    simp [initConfigUpdate, h1, h2, h3, h4, h5]

/-- C8 amended witness: a form carrying only a model value produces an update
containing the model key (hypothesis discharged concretely), and that
update carries no timeout key. -/
theorem initConfigUpdate_mutable_fields_no_timeout_witness :
    "timeout" ∉ (initConfigUpdate (ConfigForm.mk "" "" "gpt-4" "" "")).map Prod.fst ∧
    ("model", ConfigValue.str (jsTrim "gpt-4")) ∈
      initConfigUpdate (ConfigForm.mk "" "" "gpt-4" "" "") :=
  ⟨(initConfigUpdate_mutable_fields_no_timeout (ConfigForm.mk "" "" "gpt-4" "" "")).1,
   (initConfigUpdate_mutable_fields_no_timeout
      (ConfigForm.mk "" "" "gpt-4" "" "")).2.2.2.2.1 (by decide)⟩

/-- JSON value as produced by response.json() in the frontend api helper
(src/unnamed/part_000 lines 6-22). -/
inductive JVal
  | jnull
  | jbool (b : Bool)
  | jnum (q : ℚ)
  | jstr (s : String)
  | jarr (elems : List JVal)
  | jobj (fields : List (String × JVal))

/-- JavaScript truthiness of a JSON value; arrays and objects are always
truthy, and NaN does not arise from parsed JSON. -/
def jsTruthy : JVal → Bool
  | JVal.jnull => false
  | JVal.jbool b => b
  | JVal.jnum q => decide (q ≠ 0)
  | JVal.jstr s => decide (s ≠ "")
  | JVal.jarr _ => true
  | JVal.jobj _ => true

/-- Binding of a key in a parsed JSON object; parsed objects carry each key
at most once. -/
def lookupField (fields : List (String × JVal)) (k : String) : Option JVal :=
  match fields with
  | [] => none
  | (k2, v) :: rest => if k2 = k then some v else lookupField rest k

/-- Result of a JavaScript property access: a TypeError when the receiver is
null, otherwise the field value, or undefined (modelled as none) when the
field is absent or the receiver is not an object. -/
inductive PropAccess
  | threw
  | value (v : Option JVal)

/-- JavaScript member access on a parsed JSON value, as in error.detail. -/
def getProp (v : JVal) (k : String) : PropAccess :=
  match v with
  | JVal.jnull => PropAccess.threw
  | JVal.jobj fields => PropAccess.value (lookupField fields k)
  | _ => PropAccess.value none

/-- Outcome of api.request: the parsed body on success; a thrown Error
carrying its message value (JavaScript coerces it to a string at
construction); a TypeError from accessing .detail on null; or the
SyntaxError of response.json() on an ok response whose body is not
JSON. -/
inductive RequestOutcome
  | ok (body : JVal)
  | thrown (message : JVal)
  | typeError
  | parseFailure

namespace api

/-- Embedding of api.request (src/unnamed/part_000 lines 7-22).  respOk and
status are response.ok and response.status; parsed is the result of
parsing the response body as JSON, none when the body is not valid JSON —
in which case the catch handler substitutes the object with detail set to
Request failed.  On a non-ok response the handler throws an Error whose
message is error.detail when truthy and the string HTTP status
otherwise. -/
def request (respOk : Bool) (status : Nat) (parsed : Option JVal) : RequestOutcome :=
  if respOk then
    match parsed with
    | some j => RequestOutcome.ok j
    | none => RequestOutcome.parseFailure
  else
    let errVal := parsed.getD (JVal.jobj [("detail", JVal.jstr "Request failed")])
    match getProp errVal "detail" with
    | PropAccess.threw => RequestOutcome.typeError
    | PropAccess.value dOpt =>
      RequestOutcome.thrown
        (match dOpt with
         | some d => if jsTruthy d then d else JVal.jstr ("HTTP " ++ toString status)
         | none => JVal.jstr ("HTTP " ++ toString status))

end api

/-- C9 counterexample: a non-ok response with status 500 whose body parses to
JSON null makes api.request fail with a TypeError — reading .detail of
null — instead of throwing an Error with message HTTP 500 as the claim
states for every body that parses with detail absent. -/
theorem api_request_null_body_typeerror :
    api.request false 500 (some JVal.jnull) = RequestOutcome.typeError ∧
    RequestOutcome.typeError ≠
      RequestOutcome.thrown (JVal.jstr ("HTTP " ++ toString 500)) := by
  exact ⟨rfl, by simp⟩

/-- C9 amended: api.request returns the parsed JSON body when the response is
ok; on a non-ok response it throws an Error whose message is the detail
field when the body is an object with a truthy detail, the string HTTP
status when the body is an object whose detail is absent or falsy or a
non-null non-object value, and Request failed when the body cannot be
parsed as JSON; the exception to the original claim is a body parsing to
JSON null, where the .detail access itself throws a TypeError. -/
theorem api_request_outcomes :
    ∀ (status : Nat) (parsed : Option JVal),
      (∀ j, parsed = some j →
        api.request true status parsed = RequestOutcome.ok j) ∧
      (parsed = none →
        api.request false status parsed =
          RequestOutcome.thrown (JVal.jstr "Request failed")) ∧
      (∀ fields d, parsed = some (JVal.jobj fields) →
        lookupField fields "detail" = some d → jsTruthy d = true →
        api.request false status parsed = RequestOutcome.thrown d) ∧
      (∀ fields d, parsed = some (JVal.jobj fields) →
        lookupField fields "detail" = some d → jsTruthy d = false →
        api.request false status parsed =
          RequestOutcome.thrown (JVal.jstr ("HTTP " ++ toString status))) ∧
      (∀ fields, parsed = some (JVal.jobj fields) →
        lookupField fields "detail" = none →
        api.request false status parsed =
          RequestOutcome.thrown (JVal.jstr ("HTTP " ++ toString status))) ∧
      (∀ j, parsed = some j → j ≠ JVal.jnull → (∀ fields, j ≠ JVal.jobj fields) →
        api.request false status parsed =
          RequestOutcome.thrown (JVal.jstr ("HTTP " ++ toString status))) ∧
      (parsed = some JVal.jnull →
        api.request false status parsed = RequestOutcome.typeError) := by
  intro status parsed
  refine ⟨?_, ?_, ?_, ?_, ?_, ?_, ?_⟩
  · intro j h
    subst h
    rfl
  · intro h
    subst h
    rfl
  · intro fields d h hd ht
    subst h
    simp [api.request, getProp, hd, ht]
  · intro fields d h hd ht
    subst h
    simp [api.request, getProp, hd, ht]
  · intro fields h hd
    subst h
    simp [api.request, getProp, hd]
  · intro j h hnull hobj
    subst h
    cases j with
    | jnull => exact absurd rfl hnull
    | jobj fields => exact absurd rfl (hobj fields)
    | jbool b => rfl
    | jnum q => rfl
    | jstr s => rfl
    | jarr elems => rfl
  · intro h
    subst h
    rfl

/-- C9 amended witness: a concrete 404 response with a truthy detail field
throws an Error carrying that detail. -/
theorem api_request_outcomes_witness :
    api.request false 404 (some (JVal.jobj [("detail", JVal.jstr "Not found")])) =
      RequestOutcome.thrown (JVal.jstr "Not found") :=
  (api_request_outcomes 404
      (some (JVal.jobj [("detail", JVal.jstr "Not found")]))).2.2.1
    [("detail", JVal.jstr "Not found")] (JVal.jstr "Not found") rfl rfl (by decide)
